import Mathlib

/-!
Shallow embedding of `faucet/config_parser.py` (the configuration
resolution and topology-assembly core of the faucet repository).

Conventions:
* Python dicts are association lists in insertion order; assignment of a
  fresh key appends at the tail, reassignment keeps the position.
* Python objects with identity (VLAN instances) live in an explicit store
  (`VlanStore`); a reference is an index into the store, so "the same
  instance" means "the same index".
* Assertion failures are modelled with `Except Err`; `dp_parser` converts
  an `Err` into an `InvalidConfigError` carrying the original message.
* Python builtins (`str`, `int(-,0)`, `re.findall`, `re.sub`, sets) are
  modelled by executable Lean functions defined below.
-/

/-- First-match association-list lookup: the model of Python `d[k]` /
`k in d` on insertion-ordered dicts. -/
def alookup {κ α : Type} [DecidableEq κ] : List (κ × α) → κ → Option α
  | [], _ => none
  | p :: rest, k => if p.1 = k then some p.2 else alookup rest k

/-- In-place reassignment of an existing key (keeps the entry position),
the model of Python `d[k] = v` when `k` is already a key. -/
def aupdate {κ α : Type} [DecidableEq κ] : List (κ × α) → κ → α → List (κ × α)
  | [], _, _ => []
  | p :: rest, k, v => if p.1 = k then (k, v) :: rest else p :: aupdate rest k v

/-- Python `d[k] = v`: overwrite in place when present, else append. -/
def ainsert {κ α : Type} [DecidableEq κ] (d : List (κ × α)) (k : κ) (v : α) : List (κ × α) :=
  if (alookup d k).isSome then aupdate d k v else d ++ [(k, v)]

/-- Python `d.setdefault(k, v)`. -/
def asetdefault {κ α : Type} [DecidableEq κ] (d : List (κ × α)) (k : κ) (v : α) : List (κ × α) :=
  if (alookup d k).isSome then d else d ++ [(k, v)]

/-- Python `del d[k]` (no-op when the key is absent, matching the guarded
`if k in d: del d[k]` uses in the source). -/
def aremove {κ α : Type} [DecidableEq κ] : List (κ × α) → κ → List (κ × α)
  | [], _ => []
  | p :: rest, k => if p.1 = k then rest else p :: aremove rest k

theorem alookup_append_left {κ α : Type} [DecidableEq κ] (d e : List (κ × α)) (k : κ) (v : α)
    (h : alookup d k = some v) : alookup (d ++ e) k = some v := by
  induction d with
  | nil => simp [alookup] at h
  | cons p rest ih =>
    by_cases hp : p.1 = k
    · simpa [alookup, hp] using h
    · simp [alookup, hp] at h ⊢
      exact ih h

theorem alookup_append_right {κ α : Type} [DecidableEq κ] (d : List (κ × α)) (k : κ) (v : α)
    (h : alookup d k = none) : alookup (d ++ [(k, v)]) k = some v := by
  induction d with
  | nil => simp [alookup]
  | cons p rest ih =>
    by_cases hp : p.1 = k
    · simp [alookup, hp] at h
    · simp [alookup, hp] at h ⊢
      exact ih h

/-- Decimal/hex digit value; `99` marks a non-digit character. -/
def charDigitVal : Char → Nat
  | '0' => 0 | '1' => 1 | '2' => 2 | '3' => 3 | '4' => 4
  | '5' => 5 | '6' => 6 | '7' => 7 | '8' => 8 | '9' => 9
  | 'a' => 10 | 'A' => 10 | 'b' => 11 | 'B' => 11 | 'c' => 12 | 'C' => 12
  | 'd' => 13 | 'D' => 13 | 'e' => 14 | 'E' => 14 | 'f' => 15 | 'F' => 15
  | _ => 99

def isDigitCh (c : Char) : Bool := charDigitVal c < 10

def digitChar : Nat → Char
  | 0 => '0' | 1 => '1' | 2 => '2' | 3 => '3' | 4 => '4'
  | 5 => '5' | 6 => '6' | 7 => '7' | 8 => '8' | 9 => '9'
  | _ => '*'

/-- Big-endian decimal digit characters of a positive number
(fuel-structured so that the kernel can evaluate it). -/
def natReprAux : Nat → Nat → List Char
  | 0, _ => []
  | fuel + 1, n => if n = 0 then [] else natReprAux fuel (n / 10) ++ [digitChar (n % 10)]

/-- Model of Python `str` on a nonnegative integer. -/
def natRepr (n : Nat) : String := if n = 0 then ("0") else String.mk (natReprAux n n)

/-- Model of Python `str` on an integer. -/
def intRepr (i : Int) : String :=
  if i < 0 then ("-") ++ natRepr i.natAbs else natRepr i.toNat

/-- Decimal value of a big-endian digit-character list. -/
def decVal (cs : List Char) : Nat := cs.foldl (fun a c => a * 10 + charDigitVal c) 0

theorem charDigitVal_digitChar (d : Nat) (h : d < 10) : charDigitVal (digitChar d) = d := by
  interval_cases d <;> rfl

theorem decVal_append (cs : List Char) (c : Char) :
    decVal (cs ++ [c]) = decVal cs * 10 + charDigitVal c := by
  simp [decVal, List.foldl_append]

theorem decVal_natReprAux (fuel n : Nat) (h : n ≤ fuel) : decVal (natReprAux fuel n) = n := by
  induction fuel generalizing n with
  | zero => simp [natReprAux, decVal]; omega
  | succ fuel ih =>
    by_cases hn : n = 0
    · simp [natReprAux, hn, decVal]
    · have hdiv : n / 10 ≤ fuel := by
        have : n / 10 < n := Nat.div_lt_self (Nat.pos_of_ne_zero hn) (by omega)
        omega
      have hmod : n % 10 < 10 := Nat.mod_lt _ (by omega)
      simp only [natReprAux, hn, if_false]
      rw [decVal_append, ih _ hdiv, charDigitVal_digitChar _ hmod]
      omega

theorem decVal_natRepr_data (n : Nat) : decVal (natRepr n).data = n := by
  by_cases hn : n = 0
  · subst hn; decide
  · simp only [natRepr, hn, if_false]
    exact decVal_natReprAux n n (Nat.le_refl n)

theorem natRepr_inj (m n : Nat) (h : natRepr m = natRepr n) : m = n := by
  have := congrArg (fun s => decVal s.data) h
  simpa [decVal_natRepr_data] using this

/-- Python whitespace characters stripped by `int`. -/
def isPySpace (c : Char) : Bool :=
  c = ' ' || c = '\t' || c = '\n' || c = '\r' || c = '\x0b' || c = '\x0c'

def stripWs (cs : List Char) : List Char :=
  ((cs.dropWhile isPySpace).reverse.dropWhile isPySpace).reverse

/-- Underscore placement rules of Python numeric literals: no trailing
underscore and no doubled underscore. -/
def underscoresChained : List Char → Bool
  | [] => true
  | ['_'] => false
  | '_' :: '_' :: _ => false
  | _ :: rest => underscoresChained rest

/-- Digit-group validity: nonempty, correctly placed underscores, and a
leading underscore only right after a base prefix (`0x_ff` is legal,
`_5` is not). -/
def underscoreOkay (allowLead : Bool) (cs : List Char) : Bool :=
  (match cs with
   | [] => false
   | '_' :: _ => allowLead
   | _ => true)
  && underscoresChained cs && !(cs.filter (fun c => c ≠ '_')).isEmpty

/-- Value of a digit list in the given base; `none` on a bad digit. -/
def digitsVal (base : Nat) (cs : List Char) : Option Nat :=
  cs.foldl
    (fun acc c =>
      match acc with
      | none => none
      | some a => if charDigitVal c < base then some (a * base + charDigitVal c) else none)
    (some 0)

/-- Digits after a `0x`/`0o`/`0b` prefix. -/
def parsePrefixed (base : Nat) (cs : List Char) : Option Nat :=
  if underscoreOkay true cs then digitsVal base (cs.filter (fun c => c ≠ '_')) else none

/-- A base-0 decimal literal: leading zeros are only allowed when the
value is zero (`000` is `0`, `010` is a `ValueError`). -/
def parseDecimal (cs : List Char) : Option Nat :=
  if underscoreOkay false cs then
    let ds := cs.filter (fun c => c ≠ '_')
    match digitsVal 10 ds with
    | none => none
    | some v => if ds.head? = some '0' && v ≠ 0 then none else some v
  else none

def pyIntParseCore : List Char → Option Nat
  | '0' :: c :: rest =>
    if c = 'x' || c = 'X' then parsePrefixed 16 rest
    else if c = 'o' || c = 'O' then parsePrefixed 8 rest
    else if c = 'b' || c = 'B' then parsePrefixed 2 rest
    else parseDecimal ('0' :: c :: rest)
  | cs => parseDecimal cs

/-- Model of Python `int(s, 0)`: optional surrounding whitespace, an
optional sign, then an integer literal with an optional base prefix. -/
def pyIntParse (s : String) : Option Int :=
  match stripWs s.data with
  | '-' :: rest => (pyIntParseCore rest).map (fun n => -(n : Int))
  | '+' :: rest => (pyIntParseCore rest).map (fun n => (n : Int))
  | cs => (pyIntParseCore cs).map (fun n => (n : Int))

/-- A scalar Python/YAML value. -/
inductive Scalar : Type where
  | int : Int → Scalar
  | str : String → Scalar
  | bool : Bool → Scalar
deriving DecidableEq

/-- A Python/YAML configuration value, modelled to the nesting depth this
core inspects (scalars, lists of scalars, dicts of scalars).  Values keep
their Python type: an `int` and a `str` never compare equal, mirroring
Python `==` and dict-key semantics. -/
inductive Val : Type where
  | int : Int → Val
  | str : String → Val
  | bool : Bool → Val
  | list : List Scalar → Val
  | dict : List (String × Scalar) → Val
deriving DecidableEq

def Scalar.toVal : Scalar → Val
  | .int i => .int i
  | .str s => .str s
  | .bool b => .bool b

/-- Model of Python `str` applied to a configuration value (used where
the source calls `int(str(x), 0)` or interpolates `%s`). -/
def valToIdentStr : Val → String
  | .int i => intRepr i
  | .str s => s
  | .bool b => if b then ("True") else ("False")
  | .list _ => "[...]"
  | .dict _ => "{...}"

abbrev Dict := List (String × Val)

def joinComma : List String → String
  | [] => ""
  | [s] => s
  | s :: rest => s ++ ", " ++ joinComma rest

/-- The assertion failures raised inside the parsing pipeline, one
constructor per `assert` site of `config_parser.py`, carrying the data
interpolated into the original message. -/
inductive Err : Type where
  | configEmpty : Err
  | configSyntax : Err
  | unsupportedVersion : Err
  | dpsNotDefined : Err
  | loadError : String → Err
  | dpsNotConfigured : String → Err
  | vlanVidInvalid : Val → Err
  | vlanVidRange : Val → Int → Err
  | sharedBgpVlan : List String → Err
  | portNoVlan : Val → Err
  | portRangeNotInt : Err
  | portRangeOrder : Nat → Nat → Err
deriving DecidableEq

/-- The message text of each assertion, as written in the source.
The port text is modelled from the spec: `'%s' % port` formats the
external `Port` object, which the spec only requires to name the port. -/
def Err.message : Err → String
  | .configEmpty => "Config file is empty"
  | .configSyntax => "Config file does not have valid syntax"
  | .unsupportedVersion => "Only config version 2 is supported"
  | .dpsNotDefined => "dps are not defined"
  | .loadError path => "Error found while loading config file: " ++ path
  | .dpsNotConfigured path => "DPs not configured in file: " ++ path
  | .vlanVidInvalid ident => "VLAN VID value (" ++ valToIdentStr ident ++ ") is invalid"
  | .vlanVidRange ident vid =>
      "VLAN " ++ valToIdentStr ident ++ " VID value " ++ intRepr vid ++ " is not in valid range"
  | .sharedBgpVlan names => "DPs " ++ joinComma names ++ " sharing a BGP speaker VLAN is unsupported"
  | .portNoVlan ident => "Port " ++ valToIdentStr ident ++ " must have a VLAN or be a stack port"
  | .portRangeNotInt => "port range must be integer"
  | .portRangeOrder a b =>
      "Incorrect port range (" ++ natRepr a ++ " - " ++ natRepr b ++ ")"

/-- The single reportable error type of the entry point: `dpParserMain`
re-raises every pipeline assertion as `InvalidConfigError(err)`. -/
structure InvalidConfigError : Type where
  message : String
deriving DecidableEq

/-- Modelled from the spec: `MIN_VID` from `faucet.valve_of` (not under
`src/`); the spec only requires a valid-id range that contains 100 and
excludes 5000. -/
def MIN_VID : Int := 2

/-- Modelled from the spec: `MAX_VID` from `faucet.valve_of` (not under
`src/`). -/
def MAX_VID : Int := 4094

/-- Modelled from the spec: the external `VLAN` value object — a numeric
id, the owning switch id, an optional routing-speaker marker
(`bgp_routerid`, truthiness modelled as a `Bool`), and the untagged and
tagged attached-port sets. -/
structure VLAN : Type where
  vid : Nat
  dp_id : Nat
  bgp_routerid : Bool
  untagged : List Val
  tagged : List Val
deriving DecidableEq

/-- Modelled from the spec: the two-argument constructor `VLAN(vid, dp_id)`
used by the Identifier Resolver — no configuration, so no routing-speaker
marker and no attached ports. -/
def VLAN.fresh (vid : Nat) (dp_id : Nat) : VLAN :=
  { vid := vid, dp_id := dp_id, bgp_routerid := false, untagged := [], tagged := [] }

/-- Modelled from the spec: `vlan.get_ports()` lists all attached ports. -/
def VLAN.get_ports (v : VLAN) : List Val := v.untagged ++ v.tagged

/-- The heap of VLAN instances of one switch's resolution; references are
indices, so reference equality is Python object identity. -/
abbrev VlanStore := List VLAN

/-- The switch-local `vlans` dict: VLAN identifier (a raw configuration
value, as in Python) to VLAN reference. -/
abbrev VlanMap := List (Val × Nat)

def vlanDefault : VLAN := VLAN.fresh 0 0

/-- Dereference a VLAN (total: the pipeline only creates valid indices). -/
def vlanAt (store : VlanStore) (r : Nat) : VLAN := store.getD r vlanDefault

/-- The `for vlan in list(vlans.values()): if vlan_ident == str(vlan.vid)`
scan of `_get_vlan_by_identifier`: first value whose stringified vid
equals the reference (a Python `==` against a `str`, so only a `str`
reference can match). -/
def findVidMatch (vlans : VlanMap) (store : VlanStore) (vlan_ident : Val) : Option Nat :=
  (vlans.find? (fun p => vlan_ident = Val.str (natRepr (vlanAt store p.2).vid))).map (fun p => p.2)

/-- `_get_vlan_by_identifier`: resolve a VLAN reference against the
switch-local map — key match, then stringified-vid match, then parse as
an integer literal, range-check it, and create-and-register a fresh
VLAN keyed by the literal reference. -/
def getVlanByIdentifier (dp_id : Nat) (vlan_ident : Val) (vlans : VlanMap) (store : VlanStore) :
    Except Err (Nat × VlanMap × VlanStore) :=
  match alookup vlans vlan_ident with
  | some r => .ok (r, vlans, store)
  | none =>
    match findVidMatch vlans store vlan_ident with
    | some r => .ok (r, vlans, store)
    | none =>
      match pyIntParse (valToIdentStr vlan_ident) with
      | none => .error (.vlanVidInvalid vlan_ident)
      | some vid =>
        if MIN_VID ≤ vid ∧ vid ≤ MAX_VID then
          .ok (store.length, vlans ++ [(vlan_ident, store.length)],
               store ++ [VLAN.fresh vid.toNat dp_id])
        else .error (.vlanVidRange vlan_ident vid)

/-- The resolution-run scratch state `vid_dp`: VLAN numeric id to the
names of the switches attaching a VLAN with that id (a Python set,
modelled as an insertion-ordered duplicate-free list). -/
abbrev VidDp := List (Nat × List String)

def vidDpNames (m : VidDp) (vid : Nat) : List String := (alookup m vid).getD []

/-- `vid_dp[vid].add(name)` on a `defaultdict(set)`. -/
def vidDpAdd (m : VidDp) (vid : Nat) (name : String) : VidDp :=
  match alookup m vid with
  | none => m ++ [(vid, [name])]
  | some names => if name ∈ names then m else aupdate m vid (names ++ [name])

/-- Modelled from the spec: opaque per-switch ACL value object. -/
structure ACL : Type where
  ident : String
  conf : Dict
deriving DecidableEq

/-- Modelled from the spec: opaque per-switch Router value object. -/
structure Router : Type where
  ident : String
  conf : Dict
deriving DecidableEq

/-- Modelled from the spec: opaque per-switch Meter value object. -/
structure Meter : Type where
  ident : String
  conf : Dict
deriving DecidableEq

/-- A resolved port: its declaration identifier, the resolved native
VLAN reference, the resolved tagged VLAN references, and the stacking
marker.  Modelled from the spec: the external `Port` object after the
Port Assembler rewrote its VLAN fields to resolved instances. -/
structure Port : Type where
  ident : Val
  native_vlan : Option Nat
  tagged_vlans : List Nat
  stack : Bool
deriving DecidableEq

/-- Modelled from the spec: the switch entity.  `vlans` holds references
into the switch-local store; `finalized` / `stack_resolved` record that
the two (black-box) finalization operations ran. -/
structure DP : Type where
  name : String
  dp_id : Nat
  ports : List Port
  vlans : List Nat
  acls : List (String × ACL)
  routers : List (String × Router)
  meters : List (String × Meter)
  finalized : Bool
  stack_resolved : Bool
deriving DecidableEq

/-- Modelled from the spec: `dp.add_vlan(vlan)` attaches a VLAN. -/
def DP.add_vlan (dp : DP) (r : Nat) : DP := { dp with vlans := dp.vlans ++ [r] }

/-- Modelled from the spec: `dp.add_port(port)` attaches a port. -/
def DP.add_port (dp : DP) (p : Port) : DP := { dp with ports := dp.ports ++ [p] }

/-- `_dp_add_vlan`: attach a not-yet-attached VLAN to a switch, record
the switch name against the VLAN id in the scratch state, and when more
than one switch now attaches this id, require the VLAN being added to
carry no routing-speaker marker. -/
def dpAddVlan (dp : DP) (r : Nat) (store : VlanStore) (vid_dp : VidDp) :
    Except Err (DP × VidDp) :=
  if r ∈ dp.vlans then .ok (dp, vid_dp)
  else
    let dp' := dp.add_vlan r
    let v := vlanAt store r
    let vd := vidDpAdd vid_dp v.vid dp.name
    if 1 < (vidDpNames vd v.vid).length then
      if v.bgp_routerid then .error (.sharedBgpVlan (vidDpNames vd v.vid))
      else .ok (dp', vd)
    else .ok (dp', vd)

/-- Modelled from the spec: the `native_vlan` field of a raw port
configuration, as read by the external `Port` constructor. -/
def portNativeRef (conf : Dict) : Option Val := alookup conf ("native_vlan")

/-- Modelled from the spec: the `tagged_vlans` field of a raw port
configuration (a list of VLAN references; absent or non-list means none). -/
def portTaggedRefs (conf : Dict) : List Val :=
  match alookup conf ("tagged_vlans") with
  | some (.list vs) => vs.map Scalar.toVal
  | _ => []

/-- Modelled from the spec: whether the raw port configuration declares a
stacking marker. -/
def portStack (conf : Dict) : Bool := (alookup conf ("stack")).isSome

/-- Resolve the tagged-VLAN references of one port, left to right
(the list comprehension in `_dp_parse_port`). -/
def resolveTagged (dp_id : Nat) (refs : List Val) (vlans : VlanMap) (store : VlanStore) :
    Except Err (List Nat × VlanMap × VlanStore) :=
  match refs with
  | [] => .ok ([], vlans, store)
  | ref :: rest =>
    match getVlanByIdentifier dp_id ref vlans store with
    | .error e => .error e
    | .ok (r, vlans', store') =>
      match resolveTagged dp_id rest vlans' store' with
      | .error e => .error e
      | .ok (rs, vlans'', store'') => .ok (r :: rs, vlans'', store'')

/-- `vlan.add_untagged(port)` through the store. -/
def addUntaggedAt (store : VlanStore) (r : Nat) (p : Val) : VlanStore :=
  store.set r { vlanAt store r with untagged := (vlanAt store r).untagged ++ [p] }

/-- `vlan.add_tagged(port)` through the store. -/
def addTaggedAt (store : VlanStore) (r : Nat) (p : Val) : VlanStore :=
  store.set r { vlanAt store r with tagged := (vlanAt store r).tagged ++ [p] }

/-- `_dp_parse_port`: build one port, resolve and register its native
VLAN, then its tagged VLANs, and require a VLAN membership or a stacking
marker. -/
def dpParsePort (dp_id : Nat) (p_identifier : Val) (port_conf : Dict)
    (vlans : VlanMap) (store : VlanStore) :
    Except Err (Port × VlanMap × VlanStore) :=
  let step1 : Except Err (Option Nat × VlanMap × VlanStore) :=
    match portNativeRef port_conf with
    | none => .ok (none, vlans, store)
    | some vref =>
      match getVlanByIdentifier dp_id vref vlans store with
      | .error e => .error e
      | .ok (r, vlans', store') => .ok (some r, vlans', addUntaggedAt store' r p_identifier)
  match step1 with
  | .error e => .error e
  | .ok (native, vlans', store') =>
    match resolveTagged dp_id (portTaggedRefs port_conf) vlans' store' with
    | .error e => .error e
    | .ok (trs, vlans'', store'') =>
      let store3 := trs.foldl (fun st r => addTaggedAt st r p_identifier) store''
      if native.isSome || !trs.isEmpty || portStack port_conf then
        .ok ({ ident := p_identifier, native_vlan := native,
               tagged_vlans := trs, stack := portStack port_conf }, vlans'', store3)
      else .error (.portNoVlan p_identifier)

/-- Scan for the regex `\d+-\d+` (leftmost, greedy, non-overlapping), the
model of `re.findall(r'(\d+-\d+)', port_range)`.  Fuel-structured on the
string length so the kernel can evaluate it. -/
def findRangesAux : Nat → List Char → List (List Char)
  | 0, _ => []
  | _ + 1, [] => []
  | fuel + 1, c :: rest =>
    if isDigitCh c then
      match List.dropWhile isDigitCh (c :: rest) with
      | [] => findRangesAux fuel rest
      | c2 :: r2 =>
        if c2 = '-' then
          if (List.takeWhile isDigitCh r2).isEmpty then findRangesAux fuel rest
          else (List.takeWhile isDigitCh (c :: rest) ++ '-' :: List.takeWhile isDigitCh r2) ::
            findRangesAux fuel (List.dropWhile isDigitCh r2)
        else findRangesAux fuel rest
    else findRangesAux fuel rest

def findRanges (cs : List Char) : List (List Char) := findRangesAux cs.length cs

/-- Remove every (leftmost, non-overlapping) occurrence of `pat`, the
model of `re.sub(range_, '', port_range)` — the matched token contains
only digits and `-`, so it is a literal pattern. -/
def removeAllAux : Nat → List Char → List Char → List Char
  | 0, _, s => s
  | fuel + 1, pat, s =>
    match s with
    | [] => []
    | c :: rest =>
      if pat.isPrefixOf s && !pat.isEmpty then removeAllAux fuel pat (s.drop pat.length)
      else c :: removeAllAux fuel pat rest

def removeAll (pat s : List Char) : List Char := removeAllAux s.length pat s

/-- Maximal digit runs, the model of `re.findall(r'\d+', port_range)`. -/
def findIntsAux : Nat → List Char → List (List Char)
  | 0, _ => []
  | _ + 1, [] => []
  | fuel + 1, c :: rest =>
    if isDigitCh c then
      List.takeWhile isDigitCh (c :: rest) ::
        findIntsAux fuel (List.dropWhile isDigitCh (c :: rest))
    else findIntsAux fuel rest

def findInts (cs : List Char) : List (List Char) := findIntsAux cs.length cs

/-- Python `s.split(sep)` for a single-character separator. -/
def splitChar (sep : Char) : List Char → List (List Char)
  | [] => [[]]
  | c :: rest =>
    let r := splitChar sep rest
    if c = sep then [] :: r
    else
      match r with
      | h :: t => (c :: h) :: t
      | [] => [[c]]

/-- Python set insertion into an insertion-ordered duplicate-free list. -/
def listInsert (l : List Nat) (n : Nat) : List Nat := if n ∈ l then l else l ++ [n]

/-- `range(start_num, end_num + 1)`. -/
def rangeNums (a b : Nat) : List Nat := List.range' a (b + 1 - a)

/-- The `for range_ in re.findall(...)` loop body of `_dp_add_ports`:
split each matched token on `-`, parse both ends (a failure is the
`port range must be integer` assertion), require `start < end`, collect
the covered numbers, and erase the token from the remaining string. -/
def processRangesAux :
    List (List Char) → List Char → List Nat → Except Err (List Nat × List Char)
  | [], s, acc => .ok (acc, s)
  | tok :: rest, s, acc =>
    match splitChar '-' tok with
    | [d1, d2] =>
      if d1 ≠ [] ∧ d2 ≠ [] ∧ d1.all isDigitCh ∧ d2.all isDigitCh then
        if decVal d1 < decVal d2 then
          processRangesAux rest (removeAll tok s) ((rangeNums (decVal d1) (decVal d2)).foldl listInsert acc)
        else .error (.portRangeOrder (decVal d1) (decVal d2))
      else .error .portRangeNotInt
    | _ => .error .portRangeNotInt

/-- The Port-Range Expander on one range-specification string: the set
`port_nums` collected by `_dp_add_ports` for one `interface-ranges`
entry (as an insertion-ordered duplicate-free list). -/
def expandRangeList (spec : String) : Except Err (List Nat) :=
  match processRangesAux (findRanges spec.data) spec.data [] with
  | .error e => .error e
  | .ok (nums, s') => .ok ((findInts s').map decVal |>.foldl listInsert nums)

/-- `port_num_to_port_conf[port_num][1].setdefault(attr, value)` over all
fields of the range configuration: merge without overwriting existing
keys. -/
def mergeRangeConf (indiv range_conf : Dict) : Dict :=
  range_conf.foldl (fun d kv => asetdefault d kv.1 kv.2) indiv

/-- One step of the `for port_num in port_nums` loop: merge the range's
fields into an individually configured port (individual wins), or create
a new entry carrying the range's configuration. -/
def applyRangeOne (pm : List (Val × (Val × Dict))) (n : Nat) (range_conf : Dict) :
    List (Val × (Val × Dict)) :=
  match alookup pm (Val.int (n : Int)) with
  | some (ident, c) => aupdate pm (Val.int (n : Int)) (ident, mergeRangeConf c range_conf)
  | none => pm ++ [(Val.int (n : Int), (Val.int (n : Int), range_conf))]

def applyRangePorts (pm : List (Val × (Val × Dict))) (nums : List Nat) (range_conf : Dict) :
    List (Val × (Val × Dict)) :=
  nums.foldl (fun m n => applyRangeOne m n range_conf) pm

/-- The individual-ports pass of `_dp_add_ports`: key each declared port
by its `number` field when present, else by its declaration key, keeping
the declaration identifier alongside the configuration. -/
def buildIndivMap (ports_conf : List (Val × Dict)) : List (Val × (Val × Dict)) :=
  ports_conf.foldl
    (fun m pc =>
      let port_num := (alookup pc.2 ("number")).getD pc.1
      ainsert m port_num (pc.1, pc.2))
    []

/-- The `interface-ranges` pass of `_dp_add_ports`: per entry, delete the
`number` field, expand the range specification, and fold every covered
port number into the port map. -/
def processAllRanges (pm : List (Val × (Val × Dict))) :
    List (String × Dict) → Except Err (List (Val × (Val × Dict)))
  | [] => .ok pm
  | (spec, conf) :: rest =>
    let conf' := aremove conf ("number")
    match expandRangeList spec with
    | .error e => .error e
    | .ok nums => processAllRanges (applyRangePorts pm nums conf') rest

instance {ε α : Type} [DecidableEq ε] [DecidableEq α] : DecidableEq (Except ε α) :=
  fun a b =>
    match a, b with
    | .ok x, .ok y =>
      if h : x = y then .isTrue (by rw [h]) else .isFalse (fun hh => by cases hh; exact h rfl)
    | .error e, .error f =>
      if h : e = f then .isTrue (by rw [h]) else .isFalse (fun hh => by cases hh; exact h rfl)
    | .ok _, .error _ => .isFalse (fun hh => by cases hh)
    | .error _, .ok _ => .isFalse (fun hh => by cases hh)

/-- Modelled from the spec: the raw per-switch VLAN declaration as the
external `VLAN(ident, dp_id, conf)` constructor reads it — an optional
explicit numeric id and the routing-speaker marker. -/
structure VlanConf : Type where
  vid : Option Nat
  bgp_routerid : Bool
deriving DecidableEq

/-- Modelled from the spec: `VLAN(vlan_ident, dp_id, vlan_conf)` — a fresh
per-switch instance; the numeric id comes from the configuration or from
a numeric identifier. -/
def VLAN.ofConf (ident : Val) (dp_id : Nat) (conf : VlanConf) : VLAN :=
  { vid := conf.vid.getD ((pyIntParse (valToIdentStr ident)).getD 0).toNat,
    dp_id := dp_id, bgp_routerid := conf.bgp_routerid, untagged := [], tagged := [] }

/-- The raw per-switch configuration, with the `interfaces` and
`interface-ranges` sections that `_dp_add_ports` pops (keys of
`interfaces` are raw values, as in Python, where an `int` key and a
`str` key differ). -/
structure DpConf : Type where
  dp_id : Nat
  interfaces : List (Val × Dict)
  interface_ranges : List (String × Dict)
deriving DecidableEq

/-- Modelled from the spec: `DP(identifier, dp_conf)` — a fresh switch
entity with nothing attached.  Its `sanity_check` is a black box with no
specified failure condition and is modelled as always passing. -/
def DP.ofConf (name : String) (conf : DpConf) : DP :=
  { name := name, dp_id := conf.dp_id, ports := [], vlans := [], acls := [],
    routers := [], meters := [], finalized := false, stack_resolved := false }

/-- The fresh switch-local VLAN map and store seeded from every top-level
VLAN declaration (`vlans[vlan_ident] = VLAN(vlan_ident, dp_id, vlan_conf)`). -/
def seedVlans (vlans_conf : List (Val × VlanConf)) (dp_id : Nat) : VlanMap × VlanStore :=
  vlans_conf.foldl
    (fun ms p => (ms.1 ++ [(p.1, ms.2.length)], ms.2 ++ [VLAN.ofConf p.1 dp_id p.2]))
    ([], [])

/-- The `for port_num, port_conf in list(port_num_to_port_conf.values())`
loop: build each port and attach it to the switch. -/
def buildPorts (dp_id : Nat) :
    List (Val × Dict) → DP → VlanMap → VlanStore → Except Err (DP × VlanMap × VlanStore)
  | [], dp, vlans, store => .ok (dp, vlans, store)
  | (ident, conf) :: rest, dp, vlans, store =>
    match dpParsePort dp_id ident conf vlans store with
    | .error e => .error e
    | .ok (port, vlans', store') => buildPorts dp_id rest (dp.add_port port) vlans' store'

/-- The `for vlan in list(vlans.values()): if vlan.get_ports()` loop:
attach every VLAN that gained at least one port. -/
def attachVlansLoop :
    List (Val × Nat) → DP → VlanStore → VidDp → Except Err (DP × VidDp)
  | [], dp, _, vid_dp => .ok (dp, vid_dp)
  | p :: rest, dp, store, vid_dp =>
    if (vlanAt store p.2).get_ports ≠ [] then
      match dpAddVlan dp p.2 store vid_dp with
      | .error e => .error e
      | .ok (dp', vd) => attachVlansLoop rest dp' store vd
    else attachVlansLoop rest dp store vid_dp

/-- `_dp_add_ports`: build the port-number map from individual ports and
interface-ranges, build and attach every port, then attach used VLANs. -/
def dpAddPorts (dp : DP) (dp_conf : DpConf) (dp_id : Nat)
    (vlans : VlanMap) (store : VlanStore) (vid_dp : VidDp) : Except Err (DP × VidDp) :=
  let pm0 := buildIndivMap dp_conf.interfaces
  match processAllRanges pm0 dp_conf.interface_ranges with
  | .error e => .error e
  | .ok pm =>
    match buildPorts dp_id (pm.map (fun p => p.2)) dp vlans store with
    | .error e => .error e
    | .ok (dp', vlans', store') => attachVlansLoop vlans' dp' store' vid_dp

/-- The per-switch body of the `for identifier, dp_conf in dps_conf`
loop of `_dp_parser_v2`. -/
def assembleDp (acls_conf meters_conf routers_conf : List (String × Dict))
    (vlans_conf : List (Val × VlanConf)) (vid_dp : VidDp)
    (ident : String) (dp_conf : DpConf) : Except Err (DP × VidDp) :=
  let dp0 := DP.ofConf ident dp_conf
  let seeded := seedVlans vlans_conf dp0.dp_id
  let acls := acls_conf.map (fun p => (p.1, ACL.mk p.1 p.2))
  let dp1 := { dp0 with routers := routers_conf.map (fun p => (p.1, Router.mk p.1 p.2)),
                        meters := meters_conf.map (fun p => (p.1, Meter.mk p.1 p.2)) }
  match dpAddPorts dp1 dp_conf dp1.dp_id seeded.1 seeded.2 vid_dp with
  | .error e => .error e
  | .ok (dp2, vd) => .ok ({ dp2 with acls := dp2.acls ++ acls }, vd)

/-- The switch-assembly fold of `_dp_parser_v2`, threading the shared
`vid_dp` scratch state across switches. -/
def assembleAll (acls_conf meters_conf routers_conf : List (String × Dict))
    (vlans_conf : List (Val × VlanConf)) :
    List (String × DpConf) → List DP → VidDp → Except Err (List DP × VidDp)
  | [], dps, vid_dp => .ok (dps, vid_dp)
  | (ident, conf) :: rest, dps, vid_dp =>
    match assembleDp acls_conf meters_conf routers_conf vlans_conf vid_dp ident conf with
    | .error e => .error e
    | .ok (dp, vd) => assembleAll acls_conf meters_conf routers_conf vlans_conf rest (dps ++ [dp]) vd

/-- Ghost observation of the two finalization passes: which operation ran
on which switch, in order. -/
inductive Event : Type where
  | finalize : String → Event
  | stack : String → Event
deriving DecidableEq

/-- Modelled from the spec: `dp.finalize_config(dps)`, the black-box
general finalization pass over one switch given the full switch list. -/
def DP.finalize_config (dp : DP) (_dps : List DP) : DP := { dp with finalized := true }

/-- Modelled from the spec: `dp.resolve_stack_topology(dps)`, the
black-box stacking-topology resolution over one switch. -/
def DP.resolve_stack_topology (dp : DP) (_dps : List DP) : DP := { dp with stack_resolved := true }

/-- The two sequential global passes at the end of `_dp_parser_v2`:
`for dp in dps: dp.finalize_config(dps)` then
`for dp in dps: dp.resolve_stack_topology(dps)`, with the trace of
invocations as a ghost second component. -/
def runPasses (dps : List DP) : List DP × List Event :=
  let d1 := dps.map (fun dp => dp.finalize_config dps)
  let e1 := dps.map (fun dp => Event.finalize dp.name)
  let d2 := d1.map (fun dp => dp.resolve_stack_topology d1)
  let e2 := d1.map (fun dp => Event.stack dp.name)
  (d2, e1 ++ e2)

/-- `_dp_parser_v2`: assemble every declared switch, then run the two
finalization passes over the complete list. -/
def dpParserV2 (acls_conf : List (String × Dict)) (dps_conf : List (String × DpConf))
    (meters_conf routers_conf : List (String × Dict)) (vlans_conf : List (Val × VlanConf)) :
    Except Err (List DP × List Event) :=
  match assembleAll acls_conf meters_conf routers_conf vlans_conf dps_conf [] [] with
  | .error e => .error e
  | .ok (dps, _) => .ok (runPasses dps)

/-- The top-level sections populated by the external loader
(`config_parser_util.dp_include`), modelled from the spec: switch,
VLAN, ACL, router and meter declarations parsed to the shape this core
reads. -/
structure TopConfs : Type where
  acls : List (String × Dict)
  dps : List (String × DpConf)
  meters : List (String × Dict)
  routers : List (String × Dict)
  vlans : List (Val × VlanConf)
deriving DecidableEq

/-- Modelled from the spec: the per-source-document hash map maintained
by the external loader. -/
abbrev ConfigHashes := List (String × String)

/-- `_config_parser_v2`: fail if the external include step failed, fail
if no switches are declared, else run `_dp_parser_v2`.  The loader result
is passed as a parameter (`none` models a failed `dp_include`). -/
def configParserV2 (inc : Option (ConfigHashes × TopConfs)) (path : String) :
    Except Err (ConfigHashes × List DP × List Event) :=
  match inc with
  | none => .error (.loadError path)
  | some (hashes, tc) =>
    if tc.dps = [] then .error (.dpsNotConfigured path)
    else
      match dpParserV2 tc.acls tc.dps tc.meters tc.routers tc.vlans with
      | .error e => .error e
      | .ok (dps, tr) => .ok (hashes, dps, tr)

/-- The loaded configuration document as `read_config` returns it,
modelled to the depth `dpParserMain` reads it (the `version` key of a
structured mapping; `nonDict` models any non-dict document). -/
inductive ConfFile : Type where
  | dict : Dict → ConfFile
  | nonDict : Val → ConfFile
deriving DecidableEq

/-- `conf.pop('version', 2)`. -/
def versionOf (d : Dict) : Val := (alookup d ("version")).getD (Val.int 2)

/-- The body of `dpParserMain`'s `try` block: the three structural asserts,
then dispatch to `_config_parser_v2` (whose returned `dps` is never
`None` on a normal return, so `assert dps is not None` cannot fire). -/
def dpParserE (conf : Option ConfFile) (inc : Option (ConfigHashes × TopConfs)) (path : String) :
    Except Err (ConfigHashes × List DP × List Event) :=
  match conf with
  | none => .error .configEmpty
  | some (.nonDict _) => .error .configSyntax
  | some (.dict d) =>
    if versionOf d = Val.int 2 then configParserV2 inc path
    else .error .unsupportedVersion

/-- `dp_parser` (declared here as `dpParserMain`): the entry point; every `AssertionError` from the
pipeline is re-raised as `InvalidConfigError` carrying the original
message, and no switch list is returned on failure. -/
def dpParserMain (conf : Option ConfFile) (inc : Option (ConfigHashes × TopConfs)) (path : String) :
    Except InvalidConfigError (ConfigHashes × List DP × List Event) :=
  match dpParserE conf inc path with
  | .error e => .error { message := e.message }
  | .ok r => .ok r

/-! ## Claim theorems -/

/-- C10: the two distinct references `"100"` and `"0x64"` both parse to
numeric id 100; with an empty switch-local map, resolving them in
succession creates two distinct VLAN instances (store indices 0 and 1)
carrying the same numeric id, and leaves the map with two entries for
that one id. -/
theorem distinct_numeric_refs_create_duplicate_vlans :
    getVlanByIdentifier 1 (Val.str ("100")) [] [] =
      .ok (0, [(Val.str ("100"), 0)], [VLAN.fresh 100 1]) ∧
    getVlanByIdentifier 1 (Val.str ("0x64")) [(Val.str ("100"), 0)] [VLAN.fresh 100 1] =
      .ok (1, [(Val.str ("100"), 0), (Val.str ("0x64"), 1)],
           [VLAN.fresh 100 1, VLAN.fresh 100 1]) ∧
    (0 : Nat) ≠ 1 ∧ (VLAN.fresh 100 1).vid = 100 ∧ (VLAN.fresh 100 1).dp_id = 1 := by
  refine ⟨by decide, by decide, by decide, by decide, by decide⟩

/-- C6: with no key match and no stringified-vid match, a reference that
parses to an integer outside `[MIN_VID, MAX_VID]` fails with the range
error, and a reference that does not parse as an integer literal fails
with the invalid-VLAN-reference error. -/
theorem get_vlan_range_and_invalid_reference_errors
    (dp_id : Nat) (ident : Val) (vlans : VlanMap) (store : VlanStore)
    (hkey : alookup vlans ident = none)
    (hmatch : findVidMatch vlans store ident = none) :
    (∀ vid : Int, pyIntParse (valToIdentStr ident) = some vid →
      ¬(MIN_VID ≤ vid ∧ vid ≤ MAX_VID) →
      getVlanByIdentifier dp_id ident vlans store = .error (.vlanVidRange ident vid)) ∧
    (pyIntParse (valToIdentStr ident) = none →
      getVlanByIdentifier dp_id ident vlans store = .error (.vlanVidInvalid ident)) := by
  constructor
  · intro vid hp hr
    simp [getVlanByIdentifier, hkey, hmatch, hp, hr]
  · intro hp
    simp [getVlanByIdentifier, hkey, hmatch, hp]

/-- Witness for C6: id 5000 is out of range; `"abc"` is an invalid
reference. -/
theorem get_vlan_range_and_invalid_reference_errors_witness :
    getVlanByIdentifier 1 (Val.str ("5000")) [] [] =
      .error (.vlanVidRange (Val.str ("5000")) 5000) ∧
    getVlanByIdentifier 1 (Val.str ("abc")) [] [] =
      .error (.vlanVidInvalid (Val.str ("abc"))) :=
  ⟨(get_vlan_range_and_invalid_reference_errors 1 (Val.str ("5000")) [] []
      (by decide) (by decide)).1 5000 (by decide) (by decide),
   (get_vlan_range_and_invalid_reference_errors 1 (Val.str ("abc")) [] []
      (by decide) (by decide)).2 (by decide)⟩

/-- C3: on a switch whose local map has no VLAN keyed `"100"` and no VLAN
with numeric id 100, resolving `"100"` creates exactly one new VLAN with
id 100 (the store grows by exactly that instance) and registers it;
resolving `"100"` again returns the same store index — the identical
instance — and changes nothing. -/
theorem get_vlan_creates_once_and_returns_same_instance
    (dp_id : Nat) (vlans : VlanMap) (store : VlanStore)
    (hkey : alookup vlans (Val.str ("100")) = none)
    (hvid : ∀ p ∈ vlans, (vlanAt store p.2).vid ≠ 100) :
    getVlanByIdentifier dp_id (Val.str ("100")) vlans store =
      .ok (store.length, vlans ++ [(Val.str ("100"), store.length)],
           store ++ [VLAN.fresh 100 dp_id]) ∧
    getVlanByIdentifier dp_id (Val.str ("100"))
        (vlans ++ [(Val.str ("100"), store.length)]) (store ++ [VLAN.fresh 100 dp_id]) =
      .ok (store.length, vlans ++ [(Val.str ("100"), store.length)],
           store ++ [VLAN.fresh 100 dp_id]) := by
  have h100 : ∀ v : Nat, natRepr v = "100" → v = 100 := fun v hv =>
    natRepr_inj v 100 (hv.trans (by decide : natRepr 100 = "100").symm)
  have hmatch : findVidMatch vlans store (Val.str ("100")) = none := by
    unfold findVidMatch
    rw [Option.map_eq_none']
    rw [List.find?_eq_none]
    intro p hp
    simp only [decide_eq_true_eq, Val.str.injEq]
    intro heq
    exact hvid p hp (h100 _ heq.symm)
  constructor
  · simp [getVlanByIdentifier, hkey, hmatch, (by decide : pyIntParse ("100") = some 100),
          (by decide : MIN_VID ≤ (100 : Int) ∧ (100 : Int) ≤ MAX_VID), valToIdentStr]
  · have hlook : alookup (vlans ++ [(Val.str ("100"), store.length)]) (Val.str ("100")) =
        some store.length := alookup_append_right _ _ _ hkey
    simp [getVlanByIdentifier, hlook]

/-- Witness for C3: the empty map and store satisfy the hypotheses. -/
theorem get_vlan_creates_once_witness :
    getVlanByIdentifier 7 (Val.str ("100")) [] [] =
      .ok (0, [(Val.str ("100"), 0)], [VLAN.fresh 100 7]) ∧
    getVlanByIdentifier 7 (Val.str ("100")) [(Val.str ("100"), 0)] [VLAN.fresh 100 7] =
      .ok (0, [(Val.str ("100"), 0)], [VLAN.fresh 100 7]) := by
  have h := get_vlan_creates_once_and_returns_same_instance 7 [] []
    (by decide) (by intro p hp; cases hp)
  simpa using h

/-- C1: a declared schema version other than 2 and a document declaring
zero switches both make `dpParserMain` fail with `InvalidConfigError`
carrying the original assertion message (so no switch list is returned),
and every pipeline failure whatsoever is converted into that single
error type with its original message. -/
theorem dp_parser_rejects_bad_version_and_empty_dps :
    (∀ (d : Dict) (inc : Option (ConfigHashes × TopConfs)) (path : String) (v : Val),
        alookup d ("version") = some v → v ≠ Val.int 2 →
        dpParserMain (some (.dict d)) inc path =
          .error { message := Err.unsupportedVersion.message }) ∧
    (∀ (d : Dict) (hashes : ConfigHashes) (tc : TopConfs) (path : String),
        versionOf d = Val.int 2 → tc.dps = [] →
        dpParserMain (some (.dict d)) (some (hashes, tc)) path =
          .error { message := (Err.dpsNotConfigured path).message }) ∧
    (∀ (conf : Option ConfFile) (inc : Option (ConfigHashes × TopConfs)) (path : String) (e : Err),
        dpParserE conf inc path = .error e →
        dpParserMain conf inc path = .error { message := e.message }) := by
  refine ⟨?_, ?_, ?_⟩
  · intro d inc path v hv hne
    have hvo : versionOf d = v := by simp [versionOf, hv]
    simp [dpParserMain, dpParserE, hvo, hne]
  · intro d hashes tc path hv hdps
    simp [dpParserMain, dpParserE, hv, configParserV2, hdps]
  · intro conf inc path e he
    simp [dpParserMain, he]

/-- Witness for C1: version 3 is rejected; an empty `dps` section is
rejected, each with the original message. -/
theorem dp_parser_rejects_witness :
    dpParserMain (some (.dict [(("version"), Val.int 3)])) none ("faucet.yaml") =
      .error { message := "Only config version 2 is supported" } ∧
    dpParserMain (some (.dict []))
        (some ([], { acls := [], dps := [], meters := [], routers := [], vlans := [] }))
        ("faucet.yaml") =
      .error { message := "DPs not configured in file: faucet.yaml" } := by
  constructor
  · exact dp_parser_rejects_bad_version_and_empty_dps.1 _ none _ (Val.int 3) (by decide) (by decide)
  · exact dp_parser_rejects_bad_version_and_empty_dps.2.1 [] [] _ _ (by decide) rfl

/-- C9: a configuration mapping with no `version` key at all is treated
as version 2: the dispatcher proceeds straight to the downstream
dispatch (so the schema-version check does not reject it), and behaves
exactly as if the document declared version 2. -/
theorem missing_version_defaults_to_2
    (d : Dict) (inc : Option (ConfigHashes × TopConfs)) (path : String)
    (h : alookup d ("version") = none) :
    dpParserE (some (.dict d)) inc path = configParserV2 inc path ∧
    dpParserE (some (.dict d)) inc path =
      dpParserE (some (.dict ((("version"), Val.int 2) :: d))) inc path := by
  have hv : versionOf d = Val.int 2 := by simp [versionOf, h]
  have hv2 : versionOf ((("version"), Val.int 2) :: d) = Val.int 2 := by
    simp [versionOf, alookup]
  constructor
  · simp [dpParserE, hv]
  · simp [dpParserE, hv, hv2]

/-- Witness for C9: a document with no keys at all. -/
theorem missing_version_defaults_witness :
    dpParserE (some (.dict [])) none ("faucet.yaml") = configParserV2 none ("faucet.yaml") ∧
    dpParserE (some (.dict [])) none ("faucet.yaml") =
      dpParserE (some (.dict [(("version"), Val.int 2)])) none ("faucet.yaml") :=
  missing_version_defaults_to_2 [] none ("faucet.yaml") (by decide)

theorem alookup_append {κ α : Type} [DecidableEq κ] (d e : List (κ × α)) (k : κ) :
    alookup (d ++ e) k =
      match alookup d k with
      | some v => some v
      | none => alookup e k := by
  induction d with
  | nil => simp [alookup]
  | cons p rest ih =>
    by_cases hp : p.1 = k <;> simp [alookup, hp, ih]

theorem alookup_asetdefault_of_some {κ α : Type} [DecidableEq κ]
    (d : List (κ × α)) (k k1 : κ) (v : α) (v1 : α)
    (h : alookup d k = some v) : alookup (asetdefault d k1 v1) k = some v := by
  unfold asetdefault
  by_cases hk : (alookup d k1).isSome
  · simp [hk, h]
  · simp [hk]
    rw [alookup_append, h]

theorem alookup_asetdefault_of_none {κ α : Type} [DecidableEq κ]
    (d : List (κ × α)) (k k1 : κ) (v1 : α) (hne : k1 ≠ k)
    (h : alookup d k = none) : alookup (asetdefault d k1 v1) k = none := by
  unfold asetdefault
  by_cases hk : (alookup d k1).isSome
  · simp [hk, h]
  · simp [hk]
    rw [alookup_append, h]
    simp [alookup, hne]

theorem mergeRangeConf_preserves (r : Dict) (d : Dict) (k : String) (v : Val)
    (h : alookup d k = some v) : alookup (mergeRangeConf d r) k = some v := by
  induction r generalizing d with
  | nil => simpa [mergeRangeConf]
  | cons kv rest ih =>
    have : mergeRangeConf d (kv :: rest) = mergeRangeConf (asetdefault d kv.1 kv.2) rest := rfl
    rw [this]
    exact ih _ (alookup_asetdefault_of_some d k kv.1 v kv.2 h)

theorem mergeRangeConf_fills (r : Dict) (d : Dict) (k : String)
    (h : alookup d k = none) : alookup (mergeRangeConf d r) k = alookup r k := by
  induction r generalizing d with
  | nil => simpa [mergeRangeConf]
  | cons kv rest ih =>
    have hstep : mergeRangeConf d (kv :: rest) = mergeRangeConf (asetdefault d kv.1 kv.2) rest := rfl
    rw [hstep]
    by_cases hk : kv.1 = k
    · subst hk
      have hset : alookup (asetdefault d kv.1 kv.2) kv.1 = some kv.2 := by
        unfold asetdefault
        simp [h]
        rw [alookup_append, h]
        simp [alookup]
      rw [mergeRangeConf_preserves rest _ _ _ hset]
      simp [alookup]
    · rw [ih _ (alookup_asetdefault_of_none d k kv.1 kv.2 hk h)]
      simp [alookup, hk]

theorem alookup_aupdate_self {κ α : Type} [DecidableEq κ]
    (d : List (κ × α)) (k : κ) (v w : α)
    (h : alookup d k = some w) : alookup (aupdate d k v) k = some v := by
  induction d with
  | nil => simp [alookup] at h
  | cons p rest ih =>
    by_cases hp : p.1 = k
    · simp [alookup, aupdate, hp]
    · simp [alookup, aupdate, hp] at h ⊢
      exact ih h

/-- C7: a port number with both an individual configuration and a
covering range configuration resolves to the individual entry with the
range's fields merged in; the merge keeps every individually specified
field (even when the range specifies it with a different value) and
brings a range field in only where the individual configuration has no
such key. -/
theorem range_conf_merge_preserves_individual
    (pm : List (Val × (Val × Dict))) (n : Nat) (ident : Val) (indiv range_conf : Dict)
    (hpm : alookup pm (Val.int (n : Int)) = some (ident, indiv)) :
    alookup (applyRangeOne pm n range_conf) (Val.int (n : Int)) =
      some (ident, mergeRangeConf indiv range_conf) ∧
    (∀ k v, alookup indiv k = some v → alookup (mergeRangeConf indiv range_conf) k = some v) ∧
    (∀ k, alookup indiv k = none →
      alookup (mergeRangeConf indiv range_conf) k = alookup range_conf k) := by
  refine ⟨?_, ?_, ?_⟩
  · unfold applyRangeOne
    rw [hpm]
    exact alookup_aupdate_self pm _ _ _ hpm
  · intro k v hv
    exact mergeRangeConf_preserves range_conf indiv k v hv
  · intro k hk
    exact mergeRangeConf_fills range_conf indiv k hk

/-- Witness for C7: port 5 declares `F = 1` individually; the range
declares `F = 2` and `G = 3`; the merge keeps `F = 1` and imports `G`. -/
theorem range_conf_merge_witness :
    alookup (applyRangeOne [(Val.int 5, (Val.int 5, [(("F"), Val.int 1)]))] 5
        [(("F"), Val.int 2), (("G"), Val.int 3)]) (Val.int 5) =
      some (Val.int 5, mergeRangeConf [(("F"), Val.int 1)] [(("F"), Val.int 2), (("G"), Val.int 3)]) ∧
    alookup (mergeRangeConf [(("F"), Val.int 1)] [(("F"), Val.int 2), (("G"), Val.int 3)]) ("F") =
      some (Val.int 1) ∧
    alookup (mergeRangeConf [(("F"), Val.int 1)] [(("F"), Val.int 2), (("G"), Val.int 3)]) ("G") =
      alookup [(("F"), Val.int 2), (("G"), Val.int 3)] ("G") :=
  have h := range_conf_merge_preserves_individual
    [(Val.int 5, (Val.int 5, [(("F"), Val.int 1)]))] 5 (Val.int 5) [(("F"), Val.int 1)]
    [(("F"), Val.int 2), (("G"), Val.int 3)] (by decide)
  ⟨h.1, h.2.1 ("F") (Val.int 1) (by decide), h.2.2 ("G") (by decide)⟩

def exceptIsOk {ε α : Type} : Except ε α → Bool
  | .ok _ => true
  | .error _ => false

/-- C2 counterexample: a configuration where two switches attach a VLAN
of numeric id 100 and only one of the two per-switch instances declares
the routing-speaker marker (`dpA` attaches the declared `office` VLAN
carrying the marker; `dpB` attaches a fresh instance created from the
reference `0x64`, which carries none).  Assembled in the order
`dpA, dpB` the run succeeds, but in the order `dpB, dpA` it fails with
the shared-routing-speaker error — refuting "succeeds regardless of the
order in which the two switches are assembled". -/
theorem shared_speaker_one_marker_counterexample :
    exceptIsOk (dpParserV2 []
      [(("dpA"), { dp_id := 1,
                   interfaces := [(Val.int 1, [(("native_vlan"), Val.str ("office"))])],
                   interface_ranges := [] }),
       (("dpB"), { dp_id := 2,
                   interfaces := [(Val.int 1, [(("native_vlan"), Val.str ("0x64"))])],
                   interface_ranges := [] })]
      [] [] [(Val.str ("office"), { vid := some 100, bgp_routerid := true })]) = true ∧
    dpParserV2 []
      [(("dpB"), { dp_id := 2,
                   interfaces := [(Val.int 1, [(("native_vlan"), Val.str ("0x64"))])],
                   interface_ranges := [] }),
       (("dpA"), { dp_id := 1,
                   interfaces := [(Val.int 1, [(("native_vlan"), Val.str ("office"))])],
                   interface_ranges := [] })]
      [] [] [(Val.str ("office"), { vid := some 100, bgp_routerid := true })] =
      .error (.sharedBgpVlan [("dpB"), ("dpA")]) := by
  exact ⟨by decide, by decide⟩

/-- C2 amended: when two switches attach VLAN instances of the same
numeric id into a fresh resolution run, the shared-speaker check fires
exactly on the instance attached second: if the second-attached instance
declares the routing-speaker marker the attachment fails with the
shared-routing-speaker error (in particular, both instances declaring it
fails in either order); if the second-attached instance does not declare
it, both attachments succeed regardless of the first instance's marker. -/
theorem dp_add_vlan_shared_speaker_amended
    (dpA dpB : DP) (rA rB : Nat) (store : VlanStore) (vid : Nat)
    (hA : rA ∉ dpA.vlans) (hB : rB ∉ dpB.vlans)
    (hname : dpB.name ≠ dpA.name)
    (hvidA : (vlanAt store rA).vid = vid) (hvidB : (vlanAt store rB).vid = vid) :
    dpAddVlan dpA rA store [] = .ok (dpA.add_vlan rA, [(vid, [dpA.name])]) ∧
    ((vlanAt store rB).bgp_routerid = true →
      dpAddVlan dpB rB store [(vid, [dpA.name])] =
        .error (.sharedBgpVlan [dpA.name, dpB.name])) ∧
    ((vlanAt store rB).bgp_routerid = false →
      dpAddVlan dpB rB store [(vid, [dpA.name])] =
        .ok (dpB.add_vlan rB, [(vid, [dpA.name, dpB.name])])) := by
  refine ⟨?_, ?_, ?_⟩
  · simp [dpAddVlan, hA, hvidA, vidDpAdd, vidDpNames, alookup]
  · intro hm
    simp [dpAddVlan, hB, hvidB, vidDpAdd, vidDpNames, alookup, aupdate, hname, hm]
  · intro hm
    simp [dpAddVlan, hB, hvidB, vidDpAdd, vidDpNames, alookup, aupdate, hname, hm]

/-- Concrete switches and store for the amended-C2 witness. -/
def dpA0 : DP :=
  { name := "dpA", dp_id := 1, ports := [], vlans := [], acls := [], routers := [],
    meters := [], finalized := false, stack_resolved := false }

def dpB0 : DP :=
  { name := "dpB", dp_id := 2, ports := [], vlans := [], acls := [], routers := [],
    meters := [], finalized := false, stack_resolved := false }

def storeBothMarkers : VlanStore :=
  [{ vid := 100, dp_id := 1, bgp_routerid := true, untagged := [], tagged := [] },
   { vid := 100, dp_id := 2, bgp_routerid := true, untagged := [], tagged := [] }]

/-- Witness for the amended C2: two concrete switches, both instances
declaring the marker — the second attachment fails in this order (and by
the same theorem with the roles swapped, in the other order too). -/
theorem dp_add_vlan_shared_speaker_amended_witness :
    dpAddVlan dpA0 0 storeBothMarkers [] = .ok (dpA0.add_vlan 0, [(100, [("dpA")])]) ∧
    dpAddVlan dpB0 1 storeBothMarkers [(100, [("dpA")])] =
      .error (.sharedBgpVlan [("dpA"), ("dpB")]) :=
  have h := dp_add_vlan_shared_speaker_amended dpA0 dpB0 0 1 storeBothMarkers
    100 (by decide) (by decide) (by decide) (by decide) (by decide)
  ⟨h.1, h.2.1 (by decide)⟩

theorem map_event_of_name_preserving (mk : String → Event) (f : DP → DP)
    (hf : ∀ dp, (f dp).name = dp.name) (l : List DP) :
    (l.map f).map (fun dp => mk dp.name) = l.map (fun dp => mk dp.name) := by
  induction l with
  | nil => rfl
  | cons x xs ih => simp only [List.map_cons, ih, hf]

theorem runPasses_trace (dps0 : List DP) :
    (runPasses dps0).2 =
      ((runPasses dps0).1).map (fun dp => Event.finalize dp.name) ++
        ((runPasses dps0).1).map (fun dp => Event.stack dp.name) ∧
    ∀ dp ∈ (runPasses dps0).1, dp.finalized = true ∧ dp.stack_resolved = true := by
  constructor
  · unfold runPasses
    dsimp only
    rw [map_event_of_name_preserving Event.finalize
          (fun dp => dp.resolve_stack_topology (List.map (fun dp => dp.finalize_config dps0) dps0))
          (fun dp => rfl),
        map_event_of_name_preserving Event.finalize
          (fun dp => dp.finalize_config dps0) (fun dp => rfl),
        map_event_of_name_preserving Event.stack
          (fun dp => dp.resolve_stack_topology (List.map (fun dp => dp.finalize_config dps0) dps0))
          (fun dp => rfl)]
  · intro dp hdp
    unfold runPasses at hdp
    simp only [List.map_map, List.mem_map, Function.comp] at hdp
    obtain ⟨x, _, hx⟩ := hdp
    rw [← hx]
    exact ⟨rfl, rfl⟩

/-- C8: whenever `_dp_parser_v2` returns a switch list, the recorded
invocation trace is exactly one general-finalization event per assembled
switch followed by one stacking-resolution event per assembled switch:
finalization ran on every switch before stacking resolution ran on any,
and both passes covered the complete list before the result was
returned. -/
theorem finalize_before_stack_resolution
    (acls_conf : List (String × Dict)) (dps_conf : List (String × DpConf))
    (meters_conf routers_conf : List (String × Dict)) (vlans_conf : List (Val × VlanConf))
    (dps : List DP) (tr : List Event)
    (h : dpParserV2 acls_conf dps_conf meters_conf routers_conf vlans_conf = .ok (dps, tr)) :
    tr = dps.map (fun dp => Event.finalize dp.name) ++ dps.map (fun dp => Event.stack dp.name) ∧
    ∀ dp ∈ dps, dp.finalized = true ∧ dp.stack_resolved = true := by
  unfold dpParserV2 at h
  cases hasm : assembleAll acls_conf meters_conf routers_conf vlans_conf dps_conf [] [] with
  | error e => rw [hasm] at h; cases h
  | ok p =>
    obtain ⟨dps0, vd⟩ := p
    rw [hasm] at h
    have h' : (Except.ok (runPasses dps0) : Except Err (List DP × List Event)) =
        .ok (dps, tr) := h
    have hp : runPasses dps0 = (dps, tr) := by injection h'
    have hspec := runPasses_trace dps0
    rw [hp] at hspec
    exact hspec

def dpDone : DP :=
  { name := "dp1", dp_id := 1, ports := [], vlans := [], acls := [], routers := [],
    meters := [], finalized := true, stack_resolved := true }

/-- Witness for C8: a one-switch run whose trace is its finalize event
followed by its stack event, with both flags set on the result. -/
theorem finalize_before_stack_witness :
    ([Event.finalize ("dp1"), Event.stack ("dp1")] : List Event) =
      [Event.finalize dpDone.name] ++ [Event.stack dpDone.name] ∧
    dpDone.finalized = true ∧ dpDone.stack_resolved = true :=
  have h := finalize_before_stack_resolution []
    [(("dp1"), { dp_id := 1, interfaces := [], interface_ranges := [] })] [] [] []
    [dpDone] [Event.finalize ("dp1"), Event.stack ("dp1")] (by decide)
  ⟨h.1, h.2 dpDone (by simp)⟩

theorem getVlan_error_not_portNoVlan (dp_id : Nat) (ident : Val) (vlans : VlanMap)
    (store : VlanStore) (e : Err) (i : Val)
    (h : getVlanByIdentifier dp_id ident vlans store = .error e) : e ≠ .portNoVlan i := by
  unfold getVlanByIdentifier at h
  cases h1 : alookup vlans ident with
  | some r => simp only [h1] at h; cases h
  | none =>
    simp only [h1] at h
    cases h2 : findVidMatch vlans store ident with
    | some r => simp only [h2] at h; cases h
    | none =>
      simp only [h2] at h
      cases h3 : pyIntParse (valToIdentStr ident) with
      | none =>
        simp only [h3, Except.error.injEq] at h
        subst h
        simp
      | some vid =>
        simp only [h3] at h
        by_cases h4 : MIN_VID ≤ vid ∧ vid ≤ MAX_VID
        · simp only [if_pos h4] at h; cases h
        · simp only [if_neg h4, Except.error.injEq] at h
          subst h
          simp

theorem resolveTagged_error_not_portNoVlan (dp_id : Nat) (refs : List Val)
    (vlans : VlanMap) (store : VlanStore) (e : Err) (i : Val)
    (h : resolveTagged dp_id refs vlans store = .error e) : e ≠ .portNoVlan i := by
  induction refs generalizing vlans store with
  | nil => simp [resolveTagged] at h
  | cons ref rest ih =>
    unfold resolveTagged at h
    cases h1 : getVlanByIdentifier dp_id ref vlans store with
    | error e1 =>
      simp only [h1, Except.error.injEq] at h
      subst h
      exact getVlan_error_not_portNoVlan dp_id ref vlans store _ i h1
    | ok t =>
      obtain ⟨r, v1, s1⟩ := t
      simp only [h1] at h
      cases h2 : resolveTagged dp_id rest v1 s1 with
      | error e2 =>
        simp only [h2, Except.error.injEq] at h
        subst h
        exact ih v1 s1 h2
      | ok t2 =>
        obtain ⟨rs, v2, s2⟩ := t2
        simp only [h2] at h
        cases h

theorem resolveTagged_ok_length (dp_id : Nat) (refs : List Val)
    (vlans : VlanMap) (store : VlanStore) (trs : List Nat)
    (vlans' : VlanMap) (store' : VlanStore)
    (h : resolveTagged dp_id refs vlans store = .ok (trs, vlans', store')) :
    trs.length = refs.length := by
  induction refs generalizing vlans store trs vlans' store' with
  | nil =>
    unfold resolveTagged at h
    cases h
    rfl
  | cons ref rest ih =>
    unfold resolveTagged at h
    cases h1 : getVlanByIdentifier dp_id ref vlans store with
    | error e1 => simp only [h1] at h; cases h
    | ok t =>
      obtain ⟨r, v1, s1⟩ := t
      simp only [h1] at h
      cases h2 : resolveTagged dp_id rest v1 s1 with
      | error e2 => simp only [h2] at h; cases h
      | ok t2 =>
        obtain ⟨rs, v2, s2⟩ := t2
        simp only [h2, Except.ok.injEq, Prod.mk.injEq] at h
        obtain ⟨htrs, _, _⟩ := h
        subst htrs
        simp [ih v1 s1 rs v2 s2 h2]

/-- C4: a port whose resolved configuration yields no native VLAN, no
tagged VLANs and no stacking marker fails port assembly with the
port-configuration error naming that port; a port with a stacking
marker or at least one VLAN reference never fails with that error. -/
theorem dp_parse_port_requires_vlan_or_stack
    (dp_id : Nat) (ident : Val) (conf : Dict) (vlans : VlanMap) (store : VlanStore) :
    (portNativeRef conf = none → portTaggedRefs conf = [] → portStack conf = false →
      dpParsePort dp_id ident conf vlans store = .error (.portNoVlan ident)) ∧
    ((portNativeRef conf ≠ none ∨ portTaggedRefs conf ≠ [] ∨ portStack conf = true) →
      ∀ i, dpParsePort dp_id ident conf vlans store ≠ .error (.portNoVlan i)) := by
  constructor
  · intro h1 h2 h3
    simp [dpParsePort, h1, h2, h3, resolveTagged]
  · intro hcase i hcontra
    unfold dpParsePort at hcontra
    cases hn : portNativeRef conf with
    | some vref =>
      simp only [hn] at hcontra
      cases hg : getVlanByIdentifier dp_id vref vlans store with
      | error e =>
        simp only [hg, Except.error.injEq] at hcontra
        exact getVlan_error_not_portNoVlan dp_id vref vlans store _ i hg hcontra
      | ok t =>
        obtain ⟨r, v1, s1⟩ := t
        simp only [hg] at hcontra
        cases ht : resolveTagged dp_id (portTaggedRefs conf) v1 (addUntaggedAt s1 r ident) with
        | error e =>
          simp only [ht, Except.error.injEq] at hcontra
          exact resolveTagged_error_not_portNoVlan dp_id _ _ _ _ i ht hcontra
        | ok t2 =>
          obtain ⟨trs, v2, s2⟩ := t2
          simp only [ht] at hcontra
          simp at hcontra
    | none =>
      simp only [hn] at hcontra
      cases ht : resolveTagged dp_id (portTaggedRefs conf) vlans store with
      | error e =>
        simp only [ht, Except.error.injEq] at hcontra
        exact resolveTagged_error_not_portNoVlan dp_id _ _ _ _ i ht hcontra
      | ok t2 =>
        obtain ⟨trs, v2, s2⟩ := t2
        simp only [ht] at hcontra
        rcases hcase with hc | hc | hc
        · exact hc hn
        · have hlen := resolveTagged_ok_length dp_id _ _ _ _ _ _ ht
          have htrs : trs ≠ [] := by
            intro he
            rw [he] at hlen
            exact hc (List.length_eq_zero.mp hlen.symm)
          simp [htrs] at hcontra
        · simp [hc] at hcontra

/-- Witness for C4: an empty port configuration fails naming port 7; a
stack-marked port does not fail with that error. -/
theorem dp_parse_port_requires_vlan_or_stack_witness :
    dpParsePort 1 (Val.int 7) [] [] [] = .error (.portNoVlan (Val.int 7)) ∧
    dpParsePort 1 (Val.int 7) [(("stack"), Val.dict [])] [] [] ≠
      .error (.portNoVlan (Val.int 7)) :=
  ⟨(dp_parse_port_requires_vlan_or_stack 1 (Val.int 7) [] [] []).1
      (by decide) (by decide) (by decide),
   (dp_parse_port_requires_vlan_or_stack 1 (Val.int 7) [(("stack"), Val.dict [])] [] []).2
      (Or.inr (Or.inr (by decide))) (Val.int 7)⟩

theorem takeWhile_all_append (p : Char → Bool) (l1 l2 : List Char)
    (h : ∀ c ∈ l1, p c = true) :
    List.takeWhile p (l1 ++ l2) = l1 ++ List.takeWhile p l2 := by
  induction l1 with
  | nil => rfl
  | cons c cs ih =>
    have hrest := ih (fun x hx => h x (by simp [hx]))
    simp [List.takeWhile_cons, h c (by simp), hrest]

theorem dropWhile_all_append (p : Char → Bool) (l1 l2 : List Char)
    (h : ∀ c ∈ l1, p c = true) :
    List.dropWhile p (l1 ++ l2) = List.dropWhile p l2 := by
  induction l1 with
  | nil => rfl
  | cons c cs ih =>
    have hrest := ih (fun x hx => h x (by simp [hx]))
    simp [List.dropWhile_cons, h c (by simp), hrest]

theorem findRangesAux_nil (fuel : Nat) : findRangesAux fuel [] = [] := by
  cases fuel <;> rfl

theorem isDigitCh_ne_dash (c : Char) (h : isDigitCh c = true) : c ≠ '-' := by
  intro he
  subst he
  simp [isDigitCh, charDigitVal] at h

/-- One-step reduction of the range scan on a cons cell. -/
theorem findRangesAux_cons (fuel : Nat) (c : Char) (rest : List Char) :
    findRangesAux (fuel + 1) (c :: rest) =
      if isDigitCh c then
        match List.dropWhile isDigitCh (c :: rest) with
        | [] => findRangesAux fuel rest
        | c2 :: r2 =>
          if c2 = '-' then
            if (List.takeWhile isDigitCh r2).isEmpty then findRangesAux fuel rest
            else (List.takeWhile isDigitCh (c :: rest) ++ '-' :: List.takeWhile isDigitCh r2) ::
              findRangesAux fuel (List.dropWhile isDigitCh r2)
          else findRangesAux fuel rest
      else findRangesAux fuel rest := rfl

/-- A single well-formed `start-end` token is matched whole by the
range scan. -/
theorem findRanges_token (d1 d2 : List Char)
    (h1 : d1 ≠ []) (h2 : d2 ≠ [])
    (ha : ∀ c ∈ d1, isDigitCh c = true) (hb : ∀ c ∈ d2, isDigitCh c = true) :
    findRanges (d1 ++ '-' :: d2) = [d1 ++ '-' :: d2] := by
  obtain ⟨c, cs, rfl⟩ : ∃ c cs, d1 = c :: cs := by
    cases d1 with
    | nil => exact absurd rfl h1
    | cons c cs => exact ⟨c, cs, rfl⟩
  have hc : isDigitCh c = true := ha c (by simp)
  have hdash : isDigitCh '-' = false := by decide
  have htake : List.takeWhile isDigitCh (c :: (cs ++ '-' :: d2)) = c :: cs := by
    have := takeWhile_all_append isDigitCh (c :: cs) ('-' :: d2) ha
    simpa [List.takeWhile_cons, hdash] using this
  have hdrop : List.dropWhile isDigitCh (c :: (cs ++ '-' :: d2)) = '-' :: d2 := by
    have := dropWhile_all_append isDigitCh (c :: cs) ('-' :: d2) ha
    simpa [List.dropWhile_cons, hdash] using this
  have htake2 : List.takeWhile isDigitCh d2 = d2 := by
    have := takeWhile_all_append isDigitCh d2 [] hb
    simpa using this
  have hdrop2 : List.dropWhile isDigitCh d2 = [] := by
    have := dropWhile_all_append isDigitCh d2 [] hb
    simpa using this
  have hne : d2.isEmpty = false := by
    cases d2 with
    | nil => exact absurd rfl h2
    | cons x xs => rfl
  unfold findRanges
  rw [List.cons_append, List.length_cons]
  rw [findRangesAux_cons, if_pos hc, hdrop]
  dsimp only
  rw [if_pos rfl, htake2, htake]
  rw [if_neg (by simp [hne])]
  rw [hdrop2, findRangesAux_nil]
  simp

theorem splitChar_no_sep (sep : Char) (l : List Char) (h : ∀ c ∈ l, c ≠ sep) :
    splitChar sep l = [l] := by
  induction l with
  | nil => rfl
  | cons c cs ih =>
    have hcs := ih (fun x hx => h x (by simp [hx]))
    simp [splitChar, h c (by simp), hcs]

theorem splitChar_token (sep : Char) (d1 d2 : List Char)
    (h1 : ∀ c ∈ d1, c ≠ sep) (h2 : ∀ c ∈ d2, c ≠ sep) :
    splitChar sep (d1 ++ sep :: d2) = [d1, d2] := by
  induction d1 with
  | nil => simp [splitChar, splitChar_no_sep sep d2 h2]
  | cons c cs ih =>
    have hcs := ih (fun x hx => h1 x (by simp [hx]))
    simp [splitChar, h1 c (by simp), hcs]

/-- C5: the range specification `"1-3,5,7-9"` expands to exactly the set
`{1,2,3,5,7,8,9}`; and whenever the scan's first matched `start-end`
token has `start` not less than `end`, expansion fails with the
range-ordering error carrying those two numbers. -/
theorem dp_add_ports_range_expansion :
    (expandRangeList ("1-3,5,7-9")).map (fun l => l.toFinset) =
      .ok ({1, 2, 3, 5, 7, 8, 9} : Finset Nat) ∧
    ∀ (spec : String) (d1 d2 : List Char) (toks : List (List Char)),
      findRanges spec.data = (d1 ++ '-' :: d2) :: toks →
      d1 ≠ [] → d2 ≠ [] →
      (∀ c ∈ d1, isDigitCh c = true) → (∀ c ∈ d2, isDigitCh c = true) →
      ¬ decVal d1 < decVal d2 →
      expandRangeList spec = .error (.portRangeOrder (decVal d1) (decVal d2)) := by
  constructor
  · decide
  · intro spec d1 d2 toks hfind h1 h2 ha hb hlt
    unfold expandRangeList
    rw [hfind]
    unfold processRangesAux
    rw [splitChar_token '-' d1 d2 (fun c hc => isDigitCh_ne_dash c (ha c hc))
          (fun c hc => isDigitCh_ne_dash c (hb c hc))]
    have hall1 : d1.all isDigitCh = true := List.all_eq_true.mpr ha
    have hall2 : d2.all isDigitCh = true := List.all_eq_true.mpr hb
    simp [h1, h2, hall1, hall2, hlt]

/-- Witness for C5: the reversed range `"6-1"` fails with the
range-ordering error for (6, 1). -/
theorem dp_add_ports_range_expansion_witness :
    expandRangeList ("6-1") = .error (.portRangeOrder 6 1) :=
  dp_add_ports_range_expansion.2 ("6-1") ['6'] ['1'] [] (by decide) (by decide) (by decide)
    (by decide) (by decide) (by decide)
